import Mathlib

/-
Verification of the LINE_DB_viewer core against its specification.

The embedding below models the two core modules of the repository:
  * src/LINE_tableinfo/src/utils/database_utils.py
      (get_table_contents_with_wal, get_wal_data and the SQLite calls they issue)
  * src/LINE_tableinfo/src/utils/time_utils.py
      (unix_micro_to_jst, convert_timestamp)

SQLite is modelled as a finite association list from table names to
(column metadata, rows); a cursor executing `SELECT * FROM t` either returns
the rows of `t` or fails with an operational error when `t` is absent, and
`PRAGMA table_info(t)` returns the column records (empty for an absent table).
Python exceptions are modelled with `Except PyErr`; a Python `try/except`
wrapper is a `match` on that `Except`.
-/

namespace LineDB

/-- Dynamic value stored in a SQLite cell: NULL, INTEGER, REAL, TEXT or BLOB. -/
inductive Val where
  | null : Val
  | int (i : ℤ) : Val
  | real (q : ℚ) : Val
  | text (s : String) : Val
  | blob (b : List Nat) : Val
deriving DecidableEq

/-- One record of `PRAGMA table_info`: (name, declared type, notnull flag,
default value, primary-key flag).  The pk field is the integer flag of
column 5 of the pragma output; Python tests it for truthiness (`col[5]`). -/
structure Col where
  name : String
  ctype : String
  notnull : Bool
  dflt : Option String
  pk : Nat
deriving DecidableEq

/-- A table of the main database file: its catalog entry and its rows. -/
structure Table where
  cols : List Col
  rows : List (List Val)
deriving DecidableEq

/-- Python exception classes that the modelled code can raise. -/
inductive PyErr where
  | operational (msg : String) : PyErr
  | indexError : PyErr
  | valueError : PyErr
  | overflow (msg : String) : PyErr
deriving DecidableEq

/-- Element of the `wal_only_keys` result set: either a primary-key tuple
(when the table has primary-key columns) or a positional row index
(no-primary-key fallback).  In Python one `set` object holds either kind. -/
inductive WalKey where
  | key (k : List Val) : WalKey
  | idx (n : Nat) : WalKey
deriving DecidableEq

/-- The environment of one call: the main database file (catalog + rows per
table) and the optional sibling `-wal` file (`none` when no WAL file exists
on disk; when present, a map from table name to the rows readable from it). -/
structure Env where
  db : List (String × Table)
  wal : Option (List (String × List (List Val)))

/-- Catalog lookup of a table by exact name. -/
def lookupTable (db : List (String × Table)) (t : String) : Option Table :=
  (db.find? (fun p => p.1 == t)).map (fun p => p.2)

/-- Model of `cursor.execute(f"PRAGMA table_info({t})")`: the column records
of `t`, or the empty list when `t` is absent (the pragma does not raise). -/
def pragmaTableInfo (db : List (String × Table)) (t : String) : List Col :=
  match lookupTable db t with
  | some tb => tb.cols
  | none => []

/-- Model of `cursor.execute(f"SELECT * FROM {t}")`: raises an operational
error when the table is absent. -/
def execSelectAll (db : List (String × Table)) (t : String) :
    Except PyErr (List (List Val)) :=
  match lookupTable db t with
  | some tb => Except.ok tb.rows
  | none => Except.error (PyErr.operational ("no such table: " ++ t))

/-- Model of `cursor.execute(f"SELECT * FROM {t} LIMIT {l}")`.  SQLite treats
a negative LIMIT as "no limit". -/
def execSelectLimit (db : List (String × Table)) (t : String) (l : Int) :
    Except PyErr (List (List Val)) :=
  match lookupTable db t with
  | some tb => Except.ok (if l < 0 then tb.rows else tb.rows.take l.toNat)
  | none => Except.error (PyErr.operational ("no such table: " ++ t))

/-- Model of `get_wal_data` (database_utils.py lines 105-129): returns `[]`
when no `-wal` file exists, the rows of the same-named table inside the WAL
when readable, and `[]` again on any read error (the function catches every
exception and degrades to no WAL data). -/
def get_wal_data (env : Env) (t : String) : List (List Val) :=
  match env.wal with
  | none => []
  | some w =>
    match (w.find? (fun p => p.1 == t)).map (fun p => p.2) with
    | some rows => rows
    | none => []

/-- Model of the fetch at database_utils.py lines 151-156: Python tests
`if limit:` for truthiness, so `None` and `0` both take the unlimited
branch. -/
def fetchMain (db : List (String × Table)) (t : String) (limit : Option Int) :
    Except PyErr (List (List Val)) :=
  match limit with
  | some l => if l ≠ 0 then execSelectLimit db t l else execSelectAll db t
  | none => execSelectAll db t

/-- Model of Python `columns.index(pk_col)` (first index, ValueError when
absent). -/
def pyIndex (xs : List String) (a : String) : Except PyErr Nat :=
  match xs.findIdx? (fun x => x == a) with
  | some i => Except.ok i
  | none => Except.error PyErr.valueError

/-- Model of Python `row[i]` (IndexError when out of range). -/
def pyGetRow (row : List Val) (i : Nat) : Except PyErr Val :=
  match row.get? i with
  | some v => Except.ok v
  | none => Except.error PyErr.indexError

/-- Model of `tuple(row[idx] for idx in pk_indices)`: the primary-key tuple
of a row. -/
def rowKey (pkIdx : List Nat) (row : List Val) : Except PyErr (List Val) :=
  pkIdx.mapM (pyGetRow row)

/-- Model of the loop at database_utils.py lines 174-178: for each WAL row,
compute its primary-key tuple; when the tuple is not among the main-source
keys, append the row and record the tuple in `wal_only_keys`.  The set of
main-source keys `dbKeys` is built once before the loop and never updated
inside it, exactly as in the source. -/
def walLoop (dbKeys : Finset (List Val)) (pkIdx : List Nat) :
    List (List Val) → Except PyErr (List (List Val) × Finset (List Val))
  | [] => Except.ok ([], ∅)
  | r :: rs =>
    match rowKey pkIdx r with
    | Except.error e => Except.error e
    | Except.ok k =>
      match walLoop dbKeys pkIdx rs with
      | Except.error e => Except.error e
      | Except.ok p =>
        if k ∈ dbKeys then Except.ok p
        else Except.ok (r :: p.1, insert k p.2)

/-- Body of the `try` block of `get_table_contents_with_wal`
(database_utils.py lines 142-184), before the outer catch-all. -/
def getTableContentsBody (env : Env) (t : String) (limit : Option Int) :
    Except PyErr (List String × List (List Val) × Finset WalKey) :=
  let info := pragmaTableInfo env.db t
  let columns := info.map (fun c => c.name)
  let pkColumns := (info.filter (fun c => c.pk != 0)).map (fun c => c.name)
  match fetchMain env.db t limit with
  | Except.error e => Except.error e
  | Except.ok dbData =>
    let walData := get_wal_data env t
    if pkColumns ≠ [] then
      match pkColumns.mapM (pyIndex columns) with
      | Except.error e => Except.error e
      | Except.ok pkIdx =>
        match dbData.mapM (rowKey pkIdx) with
        | Except.error e => Except.error e
        | Except.ok dbKeys =>
          match walLoop dbKeys.toFinset pkIdx walData with
          | Except.error e => Except.error e
          | Except.ok res =>
            Except.ok (columns, dbData ++ res.1, Finset.image WalKey.key res.2)
    else
      Except.ok (columns, dbData ++ walData,
        ((List.range walData.length).map
          (fun i => WalKey.idx (dbData.length + i))).toFinset)

/-- Model of `get_table_contents_with_wal` (database_utils.py lines
131-188): the whole body runs under `try`, and the `except Exception`
handler prints the error and returns `([], [], set())` to the caller. -/
def get_table_contents_with_wal (env : Env) (t : String) (limit : Option Int) :
    List String × List (List Val) × Finset WalKey :=
  match getTableContentsBody env t limit with
  | Except.ok r => r
  | Except.error _ => ([], [], ∅)

/-- Days-to-civil-date conversion (proleptic Gregorian calendar), the
arithmetic underlying Python's `datetime`: given the number of days since
1970-01-01, return (year, month, day). -/
def civilFromDays (z0 : Int) : Int × Int × Int :=
  let z := z0 + 719468
  let era := Int.fdiv z 146097
  let doe := z - era * 146097
  let yoe := Int.fdiv (doe - Int.fdiv doe 1460 + Int.fdiv doe 36524 - Int.fdiv doe 146096) 365
  let y := yoe + era * 400
  let doy := doe - (365 * yoe + Int.fdiv yoe 4 - Int.fdiv yoe 100)
  let mp := Int.fdiv (5 * doy + 2) 153
  let d := doy - Int.fdiv (153 * mp + 2) 5 + 1
  let m := if mp < 10 then mp + 3 else mp - 9
  (if m ≤ 2 then y + 1 else y, m, d)

/-- Two-digit zero padding, as in `strftime` fields `%m %d %H %M %S`. -/
def pad2 (n : Int) : String :=
  if n < 10 then "0" ++ toString n else toString n

/-- Four-digit zero padding for the `%Y` field. -/
def pad4 (n : Int) : String :=
  if n < 10 then "000" ++ toString n
  else if n < 100 then "00" ++ toString n
  else if n < 1000 then "0" ++ toString n
  else toString n

/-- Rendering of a local civil instant, given as seconds since the epoch of
the local clock, in the `strftime` pattern `%Y-%m-%d %H:%M:%S`. -/
def fmtCivil (loc : Int) : String :=
  let days := Int.ediv loc 86400
  let sod := Int.emod loc 86400
  let ymd := civilFromDays days
  pad4 ymd.1 ++ "-" ++ pad2 ymd.2.1 ++ "-" ++ pad2 ymd.2.2 ++ " " ++
    pad2 (Int.ediv sod 3600) ++ ":" ++ pad2 (Int.ediv (Int.emod sod 3600) 60) ++ ":" ++
    pad2 (Int.emod sod 60)

/-- UTC offset, in seconds, of the pytz zone `Asia/Tokyo` at a given UNIX
instant: local mean time +9:18:59 before 1887-12-31T15:00Z, standard time
+9:00 afterwards.  The four daylight-saving summers of 1948-1951 are not
modelled; no theorem in this file evaluates the offset in that range. -/
def tokyoUtcOffset (s : Int) : Int :=
  if s < -2587712400 then 33539 else 32400

/-- Lowest UNIX second representable by Python `datetime`
(0001-01-01T00:00:00Z). -/
def minTs : Int := -62135596800

/-- Highest whole UNIX second representable by Python `datetime`
(9999-12-31T23:59:59Z). -/
def maxTs : Int := 253402300799

/-- Construction of an absolute time point at `s` UNIX seconds followed by
`astimezone(Asia/Tokyo)` and `strftime('%Y-%m-%d %H:%M:%S')`.  Python's
`datetime` raises (OverflowError / ValueError) when either the UTC instant
or the shifted local instant falls outside years 1..9999; fractional
seconds, kept by `datetime` but dropped by this `strftime` pattern, are
floored away by the callers before reaching here. -/
def renderTokyo (s : Int) : Except PyErr String :=
  if s < minTs ∨ s > maxTs then Except.error (PyErr.overflow "date value out of range")
  else
    let loc := s + tokyoUtcOffset s
    if loc > maxTs then Except.error (PyErr.overflow "date value out of range")
    else Except.ok (fmtCivil loc)

/-- Message text of a modelled Python exception, standing for `str(e)`. -/
def errText : PyErr → String
  | PyErr.operational m => m
  | PyErr.indexError => "list index out of range"
  | PyErr.valueError => "invalid literal for int()"
  | PyErr.overflow m => m

/-- Model of `unix_micro_to_jst` (time_utils.py lines 16-37).  Despite the
name, the body computes `unix_milli / 1000` — it divides by one thousand —
so the input is treated as milliseconds since the UNIX epoch.  The `try`
block renders the instant in `Asia/Tokyo`; the `except` handler returns an
error string prefixed with `変換エラー: `.  The floor division models the
whole-second part displayed by `strftime` after Python's true division. -/
def unix_micro_to_jst (v : Int) : String :=
  match renderTokyo (Int.fdiv v 1000) with
  | Except.ok s => s
  | Except.error e => "変換エラー: " ++ errText e

/-- Input to `convert_timestamp`: an integer or an arbitrary string (the
Python signature also admits floats, which no claim exercises). -/
inductive InVal where
  | int (i : Int) : InVal
  | str (s : String) : InVal
deriving DecidableEq

/-- Python `str(value)` on a modelled input. -/
def strOfInVal : InVal → String
  | InVal.int i => toString i
  | InVal.str s => s

/-- Decimal-digit run parsed to a number (model of the digits accepted by
Python `int`; digit-group underscores are not modelled). -/
def digitsToNat (cs : List Char) : Option Nat :=
  match cs with
  | [] => none
  | _ =>
    if cs.all (fun c => c.isDigit) then
      some (cs.foldl (fun a c => a * 10 + (c.toNat - 48)) 0)
    else none

/-- Model of Python `int(s)` for strings: surrounding whitespace is
ignored, an optional sign precedes a non-empty digit run. -/
def pyInt (s : String) : Option Int :=
  match s.trim.toList with
  | [] => none
  | c :: rest =>
    if c = '-' then (digitsToNat rest).map (fun n => -(n : Int))
    else if c = '+' then (digitsToNat rest).map (fun n => (n : Int))
    else (digitsToNat (c :: rest)).map (fun n => (n : Int))

/-- Model of the coercion at time_utils.py lines 64-68: numeric values pass
through; other values are stringified, stripped of the decorative `➡`
marker and parsed with `int`; `none` models the caught ValueError path. -/
def coerceNumeric : InVal → Option Int
  | InVal.int i => some i
  | InVal.str s => pyInt (s.replace "➡" "")

/-- UNIX seconds of 1601-01-01T00:00:00Z, the WebKit / FILETIME epoch. -/
def webkitEpochS : Int := -11644473600

/-- UNIX seconds of 2001-01-01T00:00:00Z, the HFS+ / Cocoa epoch. -/
def macEpochS : Int := 978307200

/-- The dispatch of `convert_timestamp` on `format_type` (time_utils.py
lines 70-99 plus the final `return str(value)` at line 103), inside the
`try` block, after the input has been coerced to a number.  Branch by
branch: JST delegates to `unix_micro_to_jst` (which never raises); UNIX
returns the number's string; UNIX_SEC floor-divides by 1,000,000; MAC,
WEBKIT and COCOA add `value / 1,000,000` seconds to their epoch and render
in Tokyo; FILETIME adds `value * 100 / 1,000,000,000` seconds to the 1601
epoch; every other tag, CHROME and FIREFOX included, falls through to
`str(value)`. -/
def convertBody (v : Int) (fmt : String) : Except PyErr String :=
  if fmt = "JST" then Except.ok (unix_micro_to_jst v)
  else if fmt = "UNIX" then Except.ok (toString v)
  else if fmt = "UNIX_SEC" then Except.ok (toString (Int.fdiv v 1000000))
  else if fmt = "MAC" then renderTokyo (macEpochS + Int.fdiv v 1000000)
  else if fmt = "WEBKIT" then renderTokyo (webkitEpochS + Int.fdiv v 1000000)
  else if fmt = "FILETIME" then renderTokyo (webkitEpochS + Int.fdiv (v * 100) 1000000000)
  else if fmt = "COCOA" then renderTokyo (macEpochS + Int.fdiv v 1000000)
  else Except.ok (toString v)

/-- Model of `convert_timestamp` (time_utils.py lines 39-103): coercion
failure returns `str(value)` unchanged; an exception escaping the dispatch
is caught and rendered as `変換エラー: {str(e)}`; otherwise the dispatch
result is returned. -/
def convert_timestamp (value : InVal) (format_type : String) : String :=
  match coerceNumeric value with
  | none => strOfInVal value
  | some v =>
    match convertBody v format_type with
    | Except.ok s => s
    | Except.error e => "変換エラー: " ++ errText e

deriving instance DecidableEq for Except

/-- Database of C1's scenario: one table, so that any other name is absent
from the catalog. -/
def envC1 : Env :=
  { db := [("messages",
      { cols := [⟨"Z_PK", "INTEGER", false, none, 1⟩], rows := [[Val.int 1]] })],
    wal := none }

/-- Scenario of C4: main table with primary key 1 holding "A"; WAL with
primary key 1 holding "B" and primary key 2 holding "C". -/
def envC4 : Env :=
  { db := [("chat",
      { cols := [⟨"Z_PK", "INTEGER", false, none, 1⟩, ⟨"ZTEXT", "TEXT", false, none, 0⟩],
        rows := [[Val.int 1, Val.text "A"]] })],
    wal := some [("chat", [[Val.int 1, Val.text "B"], [Val.int 2, Val.text "C"]])] }

/-- Scenario of C6: a five-row main table and a WAL contributing two rows
with primary keys absent from the main table. -/
def envC6 : Env :=
  { db := [("t",
      { cols := [⟨"Z_PK", "INTEGER", false, none, 1⟩],
        rows := [[Val.int 1], [Val.int 2], [Val.int 3], [Val.int 4], [Val.int 5]] })],
    wal := some [("t", [[Val.int 6], [Val.int 7]])] }

/-- Scenario of C7: the WAL holds two distinct rows sharing the same
primary-key tuple (2,), absent from the main table. -/
def envC7 : Env :=
  { db := [("m",
      { cols := [⟨"Z_PK", "INTEGER", false, none, 1⟩, ⟨"ZTEXT", "TEXT", false, none, 0⟩],
        rows := [[Val.int 1, Val.text "A"]] })],
    wal := some [("m", [[Val.int 2, Val.text "B"], [Val.int 2, Val.text "C"]])] }

/-- Table of C8's scenario: no column carries the primary-key flag. -/
def tbC8 : Table :=
  { cols := [⟨"ZTEXT", "TEXT", false, none, 0⟩], rows := [[Val.text "x"]] }

/-- Scenario of C8: a table without a primary key, main rows `[("x",)]`,
WAL rows `[("y",)]`. -/
def envC8 : Env :=
  { db := [("nk", tbC8)], wal := some [("nk", [[Val.text "y"]])] }

/-- Characterization of the WAL merge loop, proved once and shared by the
claims about reconciliation: the appended rows are exactly the WAL rows
whose primary-key tuple is absent from the main-source key set, and
`wal_only_keys` collects exactly those tuples. -/
theorem walLoop_spec (dbKeys : Finset (List Val)) (pkIdx : List Nat) :
    ∀ (wal app : List (List Val)) (wo : Finset (List Val)),
      walLoop dbKeys pkIdx wal = Except.ok (app, wo) →
      ((∀ r, r ∈ app → r ∈ wal ∧ ∃ k, rowKey pkIdx r = Except.ok k ∧ k ∉ dbKeys ∧ k ∈ wo) ∧
       (∀ k, k ∈ wo ↔ k ∉ dbKeys ∧ ∃ r, r ∈ wal ∧ rowKey pkIdx r = Except.ok k) ∧
       (∀ r k, r ∈ wal → rowKey pkIdx r = Except.ok k → k ∉ dbKeys → r ∈ app)) := by
  intro wal
  induction wal with
  | nil =>
    intro app wo h
    simp only [walLoop, Except.ok.injEq, Prod.mk.injEq] at h
    obtain ⟨h1, h2⟩ := h
    subst h1; subst h2
    refine ⟨?_, ?_, ?_⟩ <;> simp
  | cons r rs ih =>
    intro app wo h
    simp only [walLoop] at h
    cases hk : rowKey pkIdx r with
    | error e => rw [hk] at h; simp at h
    | ok k =>
      rw [hk] at h
      cases hr : walLoop dbKeys pkIdx rs with
      | error e => rw [hr] at h; simp at h
      | ok p =>
        rw [hr] at h
        dsimp only at h
        obtain ⟨app', wo'⟩ := p
        have IH := ih app' wo' hr
        by_cases hmem : k ∈ dbKeys
        · rw [if_pos hmem] at h
          simp only [Except.ok.injEq, Prod.mk.injEq] at h
          obtain ⟨h1, h2⟩ := h
          subst h1; subst h2
          refine ⟨?_, ?_, ?_⟩
          · intro x hx
            obtain ⟨hmemrs, hex⟩ := IH.1 x hx
            exact ⟨List.mem_cons_of_mem _ hmemrs, hex⟩
          · intro k'
            rw [IH.2.1 k']
            constructor
            · rintro ⟨hnk, rr, hrr, hkk⟩
              exact ⟨hnk, rr, List.mem_cons_of_mem _ hrr, hkk⟩
            · rintro ⟨hnk, rr, hrr, hkk⟩
              rcases List.mem_cons.mp hrr with hEq | hrr'
              · subst hEq
                rw [hk] at hkk
                injection hkk with hkk'
                exact absurd (hkk' ▸ hmem) hnk
              · exact ⟨hnk, rr, hrr', hkk⟩
          · intro rr k' hrrmem hkey hnot
            rcases List.mem_cons.mp hrrmem with hEq | hmemrs
            · subst hEq
              rw [hk] at hkey
              injection hkey with he
              exact absurd (he ▸ hmem) hnot
            · exact IH.2.2 rr k' hmemrs hkey hnot
        · rw [if_neg hmem] at h
          simp only [Except.ok.injEq, Prod.mk.injEq] at h
          obtain ⟨h1, h2⟩ := h
          subst h1; subst h2
          refine ⟨?_, ?_, ?_⟩
          · intro x hx
            rcases List.mem_cons.mp hx with hEq | hx'
            · subst hEq
              exact ⟨List.mem_cons_self _ _, k, hk, hmem, Finset.mem_insert_self _ _⟩
            · obtain ⟨hmemrs, kk, hkk, hnkk, hwo⟩ := IH.1 x hx'
              exact ⟨List.mem_cons_of_mem _ hmemrs, kk, hkk,
                hnkk, Finset.mem_insert_of_mem hwo⟩
          · intro k'
            rw [Finset.mem_insert]
            constructor
            · rintro (hEq | hwo)
              · subst hEq
                exact ⟨hmem, r, List.mem_cons_self _ _, hk⟩
              · obtain ⟨hnk, rr, hrr, hkk⟩ := (IH.2.1 k').mp hwo
                exact ⟨hnk, rr, List.mem_cons_of_mem _ hrr, hkk⟩
            · rintro ⟨hnk, rr, hrr, hkk⟩
              rcases List.mem_cons.mp hrr with hEq | hrr'
              · subst hEq
                rw [hk] at hkk
                injection hkk with he
                exact Or.inl he.symm
              · exact Or.inr ((IH.2.1 k').mpr ⟨hnk, rr, hrr', hkk⟩)
          · intro rr k' hrrmem hkey hnot
            rcases List.mem_cons.mp hrrmem with hEq | hmemrs
            · subst hEq
              exact List.mem_cons_self _ _
            · exact List.mem_cons_of_mem _ (IH.2.2 rr k' hmemrs hkey hnot)

/-- C1, counterexample.  For a table name absent from the catalog, the
claim says `get_table_contents_with_wal` fails with a typed `SchemaError`
surfaced to the caller.  In the code, the internal query fails with a
generic sqlite operational error, and the catch-all handler at
database_utils.py lines 186-188 swallows it, returning the ordinary value
`([], [], set())` to the caller — no typed failure is surfaced. -/
theorem absent_table_error_swallowed_cex :
    getTableContentsBody envC1 "NoSuchTable" none =
      Except.error (PyErr.operational "no such table: NoSuchTable") ∧
    get_table_contents_with_wal envC1 "NoSuchTable" none =
      ([], [], (∅ : Finset WalKey)) := by
  constructor
  · decide
  · decide

/-- C1, amended.  For every database in which the requested table is absent
from the catalog, `get_table_contents_with_wal` returns the empty triple
`([], [], set())`: the underlying operational error is caught inside the
function and never propagates to the caller as a typed failure. -/
theorem absent_table_returns_empty_triple (env : Env) (t : String) (limit : Option Int)
    (h : lookupTable env.db t = none) :
    get_table_contents_with_wal env t limit = ([], [], (∅ : Finset WalKey)) := by
  have hf : fetchMain env.db t limit =
      Except.error (PyErr.operational ("no such table: " ++ t)) := by
    cases limit with
    | none => simp [fetchMain, execSelectAll, h]
    | some l =>
      by_cases hl : l = 0
      · subst hl; simp [fetchMain, execSelectAll, h]
      · simp [fetchMain, hl, execSelectLimit, h]
  simp [get_table_contents_with_wal, getTableContentsBody, hf]

/-- Witness for C1's amended theorem at the concrete scenario. -/
theorem absent_table_returns_empty_triple_witness :
    get_table_contents_with_wal envC1 "NoSuchTable" none =
      ([], [], (∅ : Finset WalKey)) :=
  absent_table_returns_empty_triple envC1 "NoSuchTable" none (by decide)

/-- C2, counterexample.  The claim says `convert(1704034800000000, JST)`,
the microsecond reading of 2024-01-01 00:00:00 JST, renders as
`"2024-01-01 00:00:00"`.  It does not: the JST path divides by 1000, so
this input lands about 54000 years in the future, beyond `datetime`'s
range, and the call returns an error string instead. -/
theorem jst_microseconds_cex :
    convert_timestamp (InVal.int 1704034800000000) "JST" ≠ "2024-01-01 00:00:00" := by
  decide

/-- C2, amended.  The JST path of `convert_timestamp` interprets its input
as milliseconds since the UNIX epoch (`unix_micro_to_jst` divides by 1000,
matching the repository's own doctest and unit test): the millisecond
value 1704034800000 renders as `"2024-01-01 00:00:00"`, while the
microsecond value 1704034800000000 of the claim yields a diagnostic string
prefixed with `変換エラー`. -/
theorem jst_divides_by_thousand :
    convert_timestamp (InVal.int 1704034800000) "JST" = "2024-01-01 00:00:00" ∧
    (∃ e, convert_timestamp (InVal.int 1704034800000000) "JST" = "変換エラー: " ++ e) :=
  ⟨by decide, "date value out of range", by decide⟩

/-- C3.  For every integer `v` of whole seconds since the UNIX epoch,
`convert(v * 1_000_000, UNIX_SEC)` round-trips to the string form of `v`:
the UNIX_SEC branch floor-divides by 1,000,000, which cancels exactly. -/
theorem unix_sec_round_trip (v : Int) :
    convert_timestamp (InVal.int (v * 1000000)) "UNIX_SEC" = toString v := by
  have h : Int.fdiv (v * 1000000) 1000000 = v :=
    Int.mul_fdiv_cancel v (by norm_num)
  simp [convert_timestamp, coerceNumeric, convertBody, h]

/-- C4.  WAL precedence: in the scenario with a main row of key 1 holding
"A" and WAL rows (1, "B") and (2, "C"), the reconciled rows are
[(1, "A"), (2, "C")] with `wal_only_keys = {(2,)}` — the main row for key
1 is kept; and in general every row appended by the WAL merge loop has a
primary-key tuple absent from the main-source key set, so a colliding WAL
row is always suppressed in favor of the main row. -/
theorem wal_precedence_main_wins :
    get_table_contents_with_wal envC4 "chat" none =
      (["Z_PK", "ZTEXT"], [[Val.int 1, Val.text "A"], [Val.int 2, Val.text "C"]],
       ({WalKey.key [Val.int 2]} : Finset WalKey)) ∧
    (∀ (dbKeys : Finset (List Val)) (pkIdx : List Nat) (wal app : List (List Val))
        (wo : Finset (List Val)),
      walLoop dbKeys pkIdx wal = Except.ok (app, wo) →
      ∀ r, r ∈ app → ∃ k, rowKey pkIdx r = Except.ok k ∧ k ∉ dbKeys) := by
  constructor
  · decide
  · intro dbKeys pkIdx wal app wo h r hr
    obtain ⟨-, k, hk, hnk, -⟩ := (walLoop_spec dbKeys pkIdx wal app wo h).1 r hr
    exact ⟨k, hk, hnk⟩

/-- Witness for C4 at the concrete scenario's merge loop. -/
theorem wal_precedence_main_wins_witness :
    ∃ k, rowKey [0] [Val.int 2, Val.text "C"] = Except.ok k ∧
      k ∉ ({[Val.int 1]} : Finset (List Val)) :=
  wal_precedence_main_wins.2 {[Val.int 1]} [0]
    [[Val.int 1, Val.text "B"], [Val.int 2, Val.text "C"]]
    [[Val.int 2, Val.text "C"]] {[Val.int 2]} (by decide)
    [Val.int 2, Val.text "C"] (by decide)

/-- C5.  `convert_timestamp` is total: for every modelled input value and
every format tag it returns a string, which is the successful conversion
when the dispatch succeeds, the diagnostic `変換エラー: {e}` when the
dispatch raises, and the original value's string form when the input could
not be coerced to a number — no exception escapes to the caller. -/
theorem convert_timestamp_total (value : InVal) (fmt : String) :
    (∃ v s, coerceNumeric value = some v ∧ convertBody v fmt = Except.ok s ∧
      convert_timestamp value fmt = s) ∨
    (∃ v e, coerceNumeric value = some v ∧ convertBody v fmt = Except.error e ∧
      convert_timestamp value fmt = "変換エラー: " ++ errText e) ∨
    (coerceNumeric value = none ∧ convert_timestamp value fmt = strOfInVal value) := by
  cases hc : coerceNumeric value with
  | none => exact Or.inr (Or.inr ⟨rfl, by simp [convert_timestamp, hc]⟩)
  | some v =>
    cases hb : convertBody v fmt with
    | ok s => exact Or.inl ⟨v, s, rfl, hb, by simp [convert_timestamp, hc, hb]⟩
    | error e => exact Or.inr (Or.inl ⟨v, e, rfl, hb, by simp [convert_timestamp, hc, hb]⟩)

/-- C6.  `row_limit` bounds only the main-source fetch: in the scenario
with a five-row main table, `row_limit = 1` and a WAL contributing two
rows with new primary keys, the result has exactly 1 + 2 = 3 rows; and in
general every WAL row whose primary-key tuple is absent from the
main-source key set is appended by the merge loop, regardless of the
limit. -/
theorem row_limit_bounds_main_only :
    get_table_contents_with_wal envC6 "t" (some 1) =
      (["Z_PK"], [[Val.int 1], [Val.int 6], [Val.int 7]],
       ({WalKey.key [Val.int 6], WalKey.key [Val.int 7]} : Finset WalKey)) ∧
    (get_table_contents_with_wal envC6 "t" (some 1)).2.1.length = 1 + 2 ∧
    (∀ (dbKeys : Finset (List Val)) (pkIdx : List Nat) (wal app : List (List Val))
        (wo : Finset (List Val)) (r k : List Val),
      walLoop dbKeys pkIdx wal = Except.ok (app, wo) →
      r ∈ wal → rowKey pkIdx r = Except.ok k → k ∉ dbKeys → r ∈ app) := by
  refine ⟨by decide, by decide, ?_⟩
  intro dbKeys pkIdx wal app wo r k h hr hk hnk
  exact (walLoop_spec dbKeys pkIdx wal app wo h).2.2 r k hr hk hnk

/-- Witness for C6's universal part at the concrete scenario's merge loop. -/
theorem row_limit_bounds_main_only_witness :
    [Val.int 7] ∈ [[Val.int 6], [Val.int 7]] :=
  row_limit_bounds_main_only.2.2 {[Val.int 1]} [0] [[Val.int 6], [Val.int 7]]
    [[Val.int 6], [Val.int 7]] {[Val.int 6], [Val.int 7]} [Val.int 7] [Val.int 7]
    (by decide) (by decide) (by decide) (by decide)

/-- C7, counterexample.  The claim says every element of `wal_only_keys`
corresponds to exactly one row of the result even when the WAL holds
several rows sharing a primary-key tuple.  With WAL rows (2, "B") and
(2, "C") against a main table holding only key 1, the merge loop (whose
main-key set is never updated) appends both rows, so the single element
(2,) of `wal_only_keys` corresponds to two appended WAL rows. -/
theorem wal_only_key_two_rows_cex :
    get_table_contents_with_wal envC7 "m" none =
      (["Z_PK", "ZTEXT"],
       [[Val.int 1, Val.text "A"], [Val.int 2, Val.text "B"], [Val.int 2, Val.text "C"]],
       ({WalKey.key [Val.int 2]} : Finset WalKey)) ∧
    ((get_table_contents_with_wal envC7 "m" none).2.1.filter
      (fun r => r.take 1 == [Val.int 2])).length = 2 := by
  constructor
  · decide
  · decide

/-- C7, amended.  Every element of `wal_only_keys` is a primary-key tuple
absent from the main-source key set and belonging to at least one WAL row,
and at least one appended row of the result carries it; when the WAL holds
several rows sharing such a tuple they are all appended, so the
correspondence is at-least-one rather than exactly-one. -/
theorem wal_only_keys_characterization
    (dbKeys : Finset (List Val)) (pkIdx : List Nat) (wal app : List (List Val))
    (wo : Finset (List Val)) (h : walLoop dbKeys pkIdx wal = Except.ok (app, wo)) :
    (∀ k, k ∈ wo ↔ k ∉ dbKeys ∧ ∃ r, r ∈ wal ∧ rowKey pkIdx r = Except.ok k) ∧
    (∀ k, k ∈ wo → ∃ r, r ∈ app ∧ rowKey pkIdx r = Except.ok k) := by
  have S := walLoop_spec dbKeys pkIdx wal app wo h
  refine ⟨S.2.1, ?_⟩
  intro k hk
  obtain ⟨hnk, r, hr, hkey⟩ := (S.2.1 k).mp hk
  exact ⟨r, S.2.2 r k hr hkey hnk, hkey⟩

/-- Witness for C7's amended theorem at the concrete scenario. -/
theorem wal_only_keys_characterization_witness :
    ∃ r, r ∈ [[Val.int 2, Val.text "B"], [Val.int 2, Val.text "C"]] ∧
      rowKey [0] r = Except.ok [Val.int 2] :=
  (wal_only_keys_characterization {[Val.int 1]} [0]
      [[Val.int 2, Val.text "B"], [Val.int 2, Val.text "C"]]
      [[Val.int 2, Val.text "B"], [Val.int 2, Val.text "C"]]
      {[Val.int 2]} (by decide)).2 [Val.int 2] (by decide)

/-- C8.  No-primary-key fallback: in the concrete scenario with main rows
[("x",)] and WAL rows [("y",)], the result is rows [("x",), ("y",)] with
`wal_only_keys` marking exactly index 1; and in general, for a table whose
catalog declares no primary-key column, every WAL row is appended after
the main rows and the resulting positional indices of exactly those
appended rows are marked WAL-only. -/
theorem no_pk_fallback :
    get_table_contents_with_wal envC8 "nk" none =
      (["ZTEXT"], [[Val.text "x"], [Val.text "y"]], ({WalKey.idx 1} : Finset WalKey)) ∧
    (∀ (env : Env) (t : String) (tb : Table),
      lookupTable env.db t = some tb →
      tb.cols.filter (fun c => c.pk != 0) = [] →
      get_table_contents_with_wal env t none =
        (tb.cols.map (fun c => c.name), tb.rows ++ get_wal_data env t,
         ((List.range (get_wal_data env t).length).map
            (fun i => WalKey.idx (tb.rows.length + i))).toFinset)) := by
  constructor
  · decide
  · intro env t tb hlt hfil
    simp [get_table_contents_with_wal, getTableContentsBody, pragmaTableInfo,
      hlt, fetchMain, execSelectAll, hfil]

/-- Witness for C8's universal part at the concrete scenario. -/
theorem no_pk_fallback_witness :
    get_table_contents_with_wal envC8 "nk" none =
      (tbC8.cols.map (fun c => c.name), tbC8.rows ++ get_wal_data envC8 "nk",
       ((List.range (get_wal_data envC8 "nk").length).map
          (fun i => WalKey.idx (tbC8.rows.length + i))).toFinset) :=
  no_pk_fallback.2 envC8 "nk" tbC8 (by decide) (by decide)

/-- C9, counterexample.  The claim says CHROME and FIREFOX are aliases of
the WEBKIT interpretation.  They are not: `convert_timestamp` has no
branch for either tag, so both fall through to `str(value)`, while WEBKIT
renders the 1601-epoch instant — at the WebKit microsecond value of
2024-01-01T00:00Z the two results differ. -/
theorem chrome_firefox_not_webkit_cex :
    convert_timestamp (InVal.int 13348540800000000) "CHROME" = "13348540800000000" ∧
    convert_timestamp (InVal.int 13348540800000000) "WEBKIT" = "2024-01-01 09:00:00" ∧
    convert_timestamp (InVal.int 13348540800000000) "CHROME" ≠
      convert_timestamp (InVal.int 13348540800000000) "WEBKIT" := by
  refine ⟨by decide, by decide, by decide⟩

/-- C9, amended.  For every integer value, the CHROME and FIREFOX format
tags take the dispatch's fall-through path and return the value's string
form, identical to the UNIX tag and unrelated to the WebKit epoch. -/
theorem chrome_firefox_fall_through (v : Int) :
    convert_timestamp (InVal.int v) "CHROME" = toString v ∧
    convert_timestamp (InVal.int v) "FIREFOX" = toString v ∧
    convert_timestamp (InVal.int v) "CHROME" =
      convert_timestamp (InVal.int v) "UNIX" := by
  refine ⟨?_, ?_, ?_⟩ <;> simp [convert_timestamp, coerceNumeric, convertBody]

/-- C10.  Passing `row_limit = 0` behaves exactly like passing no limit:
the Python code tests `if limit:` for truthiness, so 0 takes the unlimited
branch, and every main-source row is fetched. -/
theorem limit_zero_behaves_as_none (env : Env) (t : String) :
    get_table_contents_with_wal env t (some 0) = get_table_contents_with_wal env t none := by
  have h : fetchMain env.db t (some 0) = fetchMain env.db t none := by
    simp [fetchMain]
  simp only [get_table_contents_with_wal, getTableContentsBody]
  rw [h]

end LineDB
